import Mathlib

/-!
Verification of the axionquant MCP financial-data server (src/index.js).

The file shallowly embeds the three pure ingredients of the server —
the query-string builder `buildQueryString`, the request helper
`makeApiRequest`, and the big `CallToolRequestSchema` dispatch switch —
together with the static tool catalog served by the
`ListToolsRequestSchema` handler.  The remote side (fetch) is modelled
as an oracle `HttpRequest → FetchResult` supplied by the environment;
the network trace (the list of requests actually issued) is returned
alongside the result so that "no network call" claims are statable.
-/

/-- A JavaScript scalar value as it can appear in a tool-call argument
bag: `undefined`, `null`, a string, or an integral number (the only
numeric parameter, `minImportance`, is an integer). -/
inductive JsValue where
  | undef
  | null
  | str (s : String)
  | num (n : Int)
deriving DecidableEq

/-- An argument bag `request.params.arguments`: an association list of
property names to values.  Absent keys read as `undefined`, as in JS. -/
def Args := List (String × JsValue)

/-- Property access `args.k`: the first binding of `k`, else `undefined`. -/
def getArg (args : Args) (k : String) : JsValue :=
  match List.find? (fun p => p.1 == k) args with
  | some p => p.2
  | none => JsValue.undef

/-- JS truthiness test `!v` as used by the required-parameter checks
(`if (!args.id) throw ...`): `undefined`, `null`, `""` and `0` are falsy. -/
def jsFalsy : JsValue → Bool
  | JsValue.undef => true
  | JsValue.null => true
  | JsValue.str s => s == ""
  | JsValue.num n => n == 0

/-- JS string coercion `String(v)`, as performed by template-literal
interpolation and by `encodeURIComponent`'s implicit coercion. -/
def jsToString : JsValue → String
  | JsValue.undef => "undefined"
  | JsValue.null => "null"
  | JsValue.str s => s
  | JsValue.num n => toString n

/-- Characters that `encodeURIComponent` leaves unescaped:
`A-Z a-z 0-9 - _ . ! ~ * ' ( )`. -/
def isUnreservedChar (c : Char) : Bool :=
  (Char.ofNat 65 ≤ c && c ≤ Char.ofNat 90) ||
  (Char.ofNat 97 ≤ c && c ≤ Char.ofNat 122) ||
  (Char.ofNat 48 ≤ c && c ≤ Char.ofNat 57) ||
  c == Char.ofNat 45 || c == Char.ofNat 95 || c == Char.ofNat 46 ||
  c == Char.ofNat 33 || c == Char.ofNat 126 || c == Char.ofNat 42 ||
  c == Char.ofNat 39 || c == Char.ofNat 40 || c == Char.ofNat 41

/-- Upper-case hexadecimal digit, as produced by percent-escapes. -/
def hexDigitUpper (n : Nat) : Char :=
  if n < 10 then Char.ofNat (48 + n) else Char.ofNat (55 + n)

/-- A single percent-escaped byte, e.g. `%2F`. -/
def percentByte (b : Nat) : String :=
  String.mk [Char.ofNat 37, hexDigitUpper (b / 16), hexDigitUpper (b % 16)]

/-- UTF-8 encoding of one character, as a list of byte values. -/
def utf8Bytes (c : Char) : List Nat :=
  let n := c.toNat
  if n < 128 then [n]
  else if n < 2048 then [192 + n / 64, 128 + n % 64]
  else if n < 65536 then [224 + n / 4096, 128 + (n / 64) % 64, 128 + n % 64]
  else [240 + n / 262144, 128 + (n / 4096) % 64, 128 + (n / 64) % 64, 128 + n % 64]

/-- The JS global `encodeURIComponent`: unreserved characters pass
through, every other character is percent-escaped byte by byte. -/
def encodeURIComponent (s : String) : String :=
  String.join (s.toList.map (fun c =>
    if isUnreservedChar c then String.singleton c
    else String.join ((utf8Bytes c).map percentByte)))

/-- The filter predicate of `buildQueryString` (src/index.js line 43):
`value !== undefined && value !== null && value !== ''`.  Note that the
number `0` is kept here, although it is falsy for `jsFalsy`. -/
def keepParam : JsValue → Bool
  | JsValue.undef => false
  | JsValue.null => false
  | JsValue.str s => !(s == "")
  | JsValue.num _ => true

/-- `buildQueryString` (src/index.js lines 41-47): filter out
`undefined`/`null`/`''` values, render each survivor as
`key=encodeURIComponent(value)`, join with `&`, and prepend `?` only
when at least one entry survives. -/
def buildQueryString (params : List (String × JsValue)) : String :=
  let filtered := (params.filter (fun p => keepParam p.2)).map
    (fun p => p.1 ++ "=" ++ encodeURIComponent (jsToString p.2))
  if filtered.length > 0 then "?" ++ String.intercalate "&" filtered else ""

/-- A JSON value, the payload type of a successfully parsed response
body.  Numbers are modelled as integers; no claim depends on float
formatting. -/
inductive Json where
  | jnull
  | jbool (b : Bool)
  | jnum (n : Int)
  | jstr (s : String)
  | jarr (items : List Json)
  | jobj (fields : List (String × Json))

/-- Escape of one character inside a JSON string literal, following
`JSON.stringify`. -/
def escapeJsonChar (c : Char) : String :=
  if c == Char.ofNat 34 then "\\\""
  else if c == Char.ofNat 92 then "\\\\"
  else if c == Char.ofNat 8 then "\\b"
  else if c == Char.ofNat 9 then "\\t"
  else if c == Char.ofNat 10 then "\\n"
  else if c == Char.ofNat 12 then "\\f"
  else if c == Char.ofNat 13 then "\\r"
  else if c.toNat < 32 then
    "\\u00" ++ String.mk [hexDigitUpper (c.toNat / 16), hexDigitUpper (c.toNat % 16)]
  else String.singleton c

/-- A JSON string literal with quotes, following `JSON.stringify`. -/
def jsonQuote (s : String) : String :=
  "\"" ++ String.join (s.toList.map escapeJsonChar) ++ "\""

/-- `2 * d` spaces: the indentation produced by `JSON.stringify(x, null, 2)`
at nesting depth `d`. -/
def indentSpaces (d : Nat) : String :=
  String.mk (List.replicate (2 * d) (Char.ofNat 32))

mutual
/-- Rendering of a JSON value at nesting depth `d`, following
`JSON.stringify(value, null, 2)` (src/index.js line 1378): empty
arrays/objects print compactly, non-empty ones print one element per
line with two-space indentation. -/
def renderJson : Nat → Json → String
  | _, Json.jnull => "null"
  | _, Json.jbool true => "true"
  | _, Json.jbool false => "false"
  | _, Json.jnum n => toString n
  | _, Json.jstr s => jsonQuote s
  | _, Json.jarr [] => "[]"
  | d, Json.jarr (x :: xs) =>
      "[\n" ++ indentSpaces (d + 1) ++ renderJson (d + 1) x ++
        renderArrRest (d + 1) xs ++ "\n" ++ indentSpaces d ++ "]"
  | _, Json.jobj [] => "\x7b\x7d"
  | d, Json.jobj ((k, v) :: fs) =>
      "\x7b\n" ++ indentSpaces (d + 1) ++ jsonQuote k ++ ": " ++
        renderJson (d + 1) v ++ renderObjRest (d + 1) fs ++
        "\n" ++ indentSpaces d ++ "\x7d"

/-- Remaining array elements, each on its own line. -/
def renderArrRest : Nat → List Json → String
  | _, [] => ""
  | d, x :: xs => ",\n" ++ indentSpaces d ++ renderJson d x ++ renderArrRest d xs

/-- Remaining object fields, each on its own line. -/
def renderObjRest : Nat → List (String × Json) → String
  | _, [] => ""
  | d, (k, v) :: fs =>
      ",\n" ++ indentSpaces d ++ jsonQuote k ++ ": " ++ renderJson d v ++
        renderObjRest d fs
end

/-- `JSON.stringify(result, null, 2)` as applied to the parsed payload
in the success return (src/index.js line 1378). -/
def stringifyIndent2 (j : Json) : String := renderJson 0 j

/-- The constant `API_BASE_URL` (src/index.js line 10). -/
def API_BASE_URL : String := "https://api.axionquant.com/"

/-- An outbound HTTP request as assembled by `makeApiRequest`:
method, full URL, and header list in construction order. -/
structure HttpRequest where
  method : String
  url : String
  headers : List (String × String)
deriving DecidableEq

/-- The request `makeApiRequest` hands to `fetch` (src/index.js lines
16-25): method `GET` (every call site passes `{ method: 'GET' }` and no
extra headers), URL `API_BASE_URL + endpoint`, header `Content-Type:
application/json`, and `Authorization: Bearer <API_KEY>` only when the
`API_KEY` environment value is truthy.  The key is modelled as a
`String` where `""` stands for both an unset and an empty variable,
the two falsy cases. -/
def mkHttpRequest (apiKey : String) (endpoint : String) : HttpRequest :=
  { method := "GET"
    url := API_BASE_URL ++ endpoint
    headers := [("Content-Type", "application/json")] ++
      (if apiKey == "" then [] else [("Authorization", "Bearer " ++ apiKey)]) }

/-- The observable part of a fetch `Response`: its status code, the raw
body text (`response.text()`), the result of `response.json()` —
`some j` when the body parses, `none` with the parser's error message
otherwise.  All of this is environment data, not code of the server. -/
structure FetchResponse where
  status : Nat
  bodyText : String
  bodyJson : Option Json
  parseErrorMsg : String

/-- Outcome of one `fetch`: either a response arrived, or the promise
rejected with a network-level error carrying a message. -/
inductive FetchResult where
  | success (r : FetchResponse)
  | netFailure (msg : String)

/-- `response.ok`: status in the inclusive range 200-299. -/
def statusOk (s : Nat) : Bool := 200 ≤ s && s ≤ 299

/-- `makeApiRequest` (src/index.js lines 16-36) against a remote oracle.
It issues exactly one fetch; a non-ok status raises
`API request failed: <status> - <raw body text>`, a parse failure
raises the parser's message, and every raised error is re-wrapped by
the surrounding catch as `Failed to fetch from <url>: <message>`.
The second component is the list of requests issued. -/
def makeApiRequest (apiKey : String) (remote : HttpRequest → FetchResult)
    (endpoint : String) : Except String Json × List HttpRequest :=
  let url := API_BASE_URL ++ endpoint
  let req := mkHttpRequest apiKey endpoint
  match remote req with
  | FetchResult.netFailure msg =>
      (Except.error ("Failed to fetch from " ++ url ++ ": " ++ msg), [req])
  | FetchResult.success r =>
      if statusOk r.status then
        match r.bodyJson with
        | some j => (Except.ok j, [req])
        | none =>
            (Except.error ("Failed to fetch from " ++ url ++ ": " ++ r.parseErrorMsg),
              [req])
      else
        (Except.error ("Failed to fetch from " ++ url ++ ": " ++
          ("API request failed: " ++ toString r.status ++ " - " ++ r.bodyText)), [req])

/-- One entry of the tool catalog served by the ListTools handler
(src/index.js lines 67-908): the tool name, its schema's property names
in declaration order, and its schema's `required` array (empty when the
schema has none).  Descriptions and property types are not modelled;
no claim mentions them. -/
structure ToolDef where
  name : String
  props : List String
  requiredParams : List String
deriving DecidableEq

/-- The tool catalog returned by the `ListToolsRequestSchema` handler
(src/index.js lines 67-908), in source order.  The
`indices_tickers` / `indices_ticker` / `indices_prices` trio appears
twice (lines 776-815 and 817-857), exactly as in the source. -/
def toolCatalog : List ToolDef :=
  [ { name := "credit_search", props := ["query"], requiredParams := [] }
  , { name := "credit_ratings", props := ["id"], requiredParams := ["id"] }
  , { name := "econ_search", props := ["query"], requiredParams := ["query"] }
  , { name := "econ_dataset", props := ["id"], requiredParams := ["id"] }
  , { name := "econ_calendar"
    , props := ["from", "to", "country", "minImportance", "currency", "category"]
    , requiredParams := [] }
  , { name := "esg_data", props := ["ticker"], requiredParams := ["ticker"] }
  , { name := "etf_fund", props := ["ticker"], requiredParams := ["ticker"] }
  , { name := "etf_weights", props := ["ticker"], requiredParams := ["ticker"] }
  , { name := "etf_holdings", props := ["ticker"], requiredParams := ["ticker"] }
  , { name := "etf_exposure", props := ["ticker"], requiredParams := ["ticker"] }
  , { name := "news_ticker", props := ["ticker"], requiredParams := ["ticker"] }
  , { name := "news_country", props := ["country"], requiredParams := ["country"] }
  , { name := "news_category", props := ["category"], requiredParams := ["category"] }
  , { name := "news_general", props := [], requiredParams := [] }
  , { name := "sentiment_social", props := ["ticker"], requiredParams := ["ticker"] }
  , { name := "sentiment_news", props := ["ticker"], requiredParams := ["ticker"] }
  , { name := "sentiment_analyst", props := ["ticker"], requiredParams := ["ticker"] }
  , { name := "supply_chain_customers", props := ["ticker"], requiredParams := ["ticker"] }
  , { name := "supply_chain_peers", props := ["ticker"], requiredParams := ["ticker"] }
  , { name := "supply_chain_suppliers", props := ["ticker"], requiredParams := ["ticker"] }
  , { name := "profiles_asset", props := ["ticker"], requiredParams := ["ticker"] }
  , { name := "profiles_recommendation", props := ["ticker"], requiredParams := ["ticker"] }
  , { name := "profiles_cashflow", props := ["ticker"], requiredParams := ["ticker"] }
  , { name := "profiles_trend_index", props := ["ticker"], requiredParams := ["ticker"] }
  , { name := "profiles_statistics", props := ["ticker"], requiredParams := ["ticker"] }
  , { name := "profiles_income", props := ["ticker"], requiredParams := ["ticker"] }
  , { name := "profiles_fund", props := ["ticker"], requiredParams := ["ticker"] }
  , { name := "profiles_summary", props := ["ticker"], requiredParams := ["ticker"] }
  , { name := "profiles_insiders", props := ["ticker"], requiredParams := ["ticker"] }
  , { name := "profiles_calendar", props := ["ticker"], requiredParams := ["ticker"] }
  , { name := "profiles_balancesheet", props := ["ticker"], requiredParams := ["ticker"] }
  , { name := "profiles_trend_earnings", props := ["ticker"], requiredParams := ["ticker"] }
  , { name := "profiles_institution", props := ["ticker"], requiredParams := ["ticker"] }
  , { name := "profiles_ownership", props := ["ticker"], requiredParams := ["ticker"] }
  , { name := "profiles_earnings", props := ["ticker"], requiredParams := ["ticker"] }
  , { name := "profiles_info", props := ["ticker"], requiredParams := ["ticker"] }
  , { name := "profiles_activity", props := ["ticker"], requiredParams := ["ticker"] }
  , { name := "profiles_transactions", props := ["ticker"], requiredParams := ["ticker"] }
  , { name := "profiles_financials", props := ["ticker"], requiredParams := ["ticker"] }
  , { name := "profiles_traffic", props := ["ticker"], requiredParams := ["ticker"] }
  , { name := "crypto_tickers", props := ["type"], requiredParams := [] }
  , { name := "crypto_ticker", props := ["ticker"], requiredParams := ["ticker"] }
  , { name := "crypto_prices", props := ["ticker"], requiredParams := ["ticker"] }
  , { name := "forex_tickers", props := ["country", "exchange"], requiredParams := [] }
  , { name := "forex_ticker", props := ["ticker"], requiredParams := ["ticker"] }
  , { name := "forex_prices", props := ["ticker"], requiredParams := ["ticker"] }
  , { name := "future_tickers", props := ["exchange"], requiredParams := [] }
  , { name := "future_ticker", props := ["ticker"], requiredParams := ["ticker"] }
  , { name := "future_prices", props := ["ticker"], requiredParams := ["ticker"] }
  , { name := "indices_tickers", props := ["exchange"], requiredParams := [] }
  , { name := "indices_ticker", props := ["ticker"], requiredParams := ["ticker"] }
  , { name := "indices_prices", props := ["ticker"], requiredParams := ["ticker"] }
  , { name := "indices_tickers", props := ["exchange"], requiredParams := [] }
  , { name := "indices_ticker", props := ["ticker"], requiredParams := ["ticker"] }
  , { name := "indices_prices", props := ["ticker"], requiredParams := ["ticker"] }
  , { name := "stocks_tickers", props := ["country", "exchange"], requiredParams := [] }
  , { name := "stocks_ticker", props := ["ticker"], requiredParams := ["ticker"] }
  , { name := "stocks_prices", props := ["ticker"], requiredParams := ["ticker"] }
  ]

/-- The validation-and-endpoint portion of the `CallToolRequestSchema`
dispatch switch (src/index.js lines 920-1372), transcribed case by case
in source order.  Each branch performs the case's required-parameter
check (`if (!args.x) throw new Error(...)`) and then assembles the
same endpoint string the case passes to `makeApiRequest`; the default
branch is the `Unknown tool` throw.  `Except.error m` models a value
thrown inside the switch before any network access. -/
def buildEndpoint (name : String) (args : Args) : Except String String :=
  if name == "credit_search" then
    Except.ok ("credit/search" ++ buildQueryString [("query", getArg args "query")])
  else if name == "credit_ratings" then
    if jsFalsy (getArg args "id") then Except.error "Organization ID is required"
    else Except.ok ("credit/ratings/" ++ jsToString (getArg args "id"))
  else if name == "econ_search" then
    if jsFalsy (getArg args "query") then Except.error "Search query is required"
    else Except.ok ("econ/search" ++ buildQueryString [("query", getArg args "query")])
  else if name == "econ_dataset" then
    if jsFalsy (getArg args "id") then Except.error "Dataset ID is required"
    else Except.ok ("econ/dataset/" ++ jsToString (getArg args "id"))
  else if name == "econ_calendar" then
    Except.ok ("econ/calendar" ++ buildQueryString
      [ ("from", getArg args "from"), ("to", getArg args "to")
      , ("country", getArg args "country"), ("minImportance", getArg args "minImportance")
      , ("currency", getArg args "currency"), ("category", getArg args "category") ])
  else if name == "esg_data" then
    if jsFalsy (getArg args "ticker") then Except.error "Ticker symbol is required"
    else Except.ok ("esg/" ++ jsToString (getArg args "ticker"))
  else if name == "etf_fund" then
    if jsFalsy (getArg args "ticker") then Except.error "ETF ticker symbol is required"
    else Except.ok ("etf/" ++ jsToString (getArg args "ticker") ++ "/fund")
  else if name == "etf_weights" then
    if jsFalsy (getArg args "ticker") then Except.error "ETF ticker symbol is required"
    else Except.ok ("etf/" ++ jsToString (getArg args "ticker") ++ "/weights")
  else if name == "etf_holdings" then
    if jsFalsy (getArg args "ticker") then Except.error "ETF ticker symbol is required"
    else Except.ok ("etf/" ++ jsToString (getArg args "ticker") ++ "/holdings")
  else if name == "etf_exposure" then
    if jsFalsy (getArg args "ticker") then Except.error "Ticker symbol is required"
    else Except.ok ("etf/" ++ jsToString (getArg args "ticker") ++ "/exposure")
  else if name == "news_ticker" then
    if jsFalsy (getArg args "ticker") then Except.error "Ticker symbol is required"
    else Except.ok ("news/" ++ jsToString (getArg args "ticker"))
  else if name == "news_country" then
    if jsFalsy (getArg args "country") then Except.error "Country parameter is required"
    else Except.ok ("news/country/" ++ encodeURIComponent (jsToString (getArg args "country")))
  else if name == "news_category" then
    if jsFalsy (getArg args "category") then Except.error "Category parameter is required"
    else Except.ok ("news/category/" ++ encodeURIComponent (jsToString (getArg args "category")))
  else if name == "news_general" then
    Except.ok "news"
  else if name == "sentiment_social" then
    if jsFalsy (getArg args "ticker") then Except.error "Ticker symbol is required"
    else Except.ok ("sentiment/" ++ jsToString (getArg args "ticker") ++ "/social")
  else if name == "sentiment_news" then
    if jsFalsy (getArg args "ticker") then Except.error "Ticker symbol is required"
    else Except.ok ("sentiment/" ++ jsToString (getArg args "ticker") ++ "/news")
  else if name == "sentiment_analyst" then
    if jsFalsy (getArg args "ticker") then Except.error "Ticker symbol is required"
    else Except.ok ("sentiment/" ++ jsToString (getArg args "ticker") ++ "/analyst")
  else if name == "supply_chain_customers" then
    if jsFalsy (getArg args "ticker") then Except.error "Ticker symbol is required"
    else Except.ok ("supply-chain/" ++ jsToString (getArg args "ticker") ++ "/customers")
  else if name == "supply_chain_peers" then
    if jsFalsy (getArg args "ticker") then Except.error "Ticker symbol is required"
    else Except.ok ("supply-chain/" ++ jsToString (getArg args "ticker") ++ "/peers")
  else if name == "supply_chain_suppliers" then
    if jsFalsy (getArg args "ticker") then Except.error "Ticker symbol is required"
    else Except.ok ("supply-chain/" ++ jsToString (getArg args "ticker") ++ "/suppliers")
  else if name == "profiles_asset" then
    if jsFalsy (getArg args "ticker") then Except.error "Ticker symbol is required"
    else Except.ok ("profiles/" ++ jsToString (getArg args "ticker") ++ "/asset")
  else if name == "profiles_recommendation" then
    if jsFalsy (getArg args "ticker") then Except.error "Ticker symbol is required"
    else Except.ok ("profiles/" ++ jsToString (getArg args "ticker") ++ "/recommendation")
  else if name == "profiles_cashflow" then
    if jsFalsy (getArg args "ticker") then Except.error "Ticker symbol is required"
    else Except.ok ("profiles/" ++ jsToString (getArg args "ticker") ++ "/cashflow")
  else if name == "profiles_trend_index" then
    if jsFalsy (getArg args "ticker") then Except.error "Ticker symbol is required"
    else Except.ok ("profiles/" ++ jsToString (getArg args "ticker") ++ "/trend/index")
  else if name == "profiles_statistics" then
    if jsFalsy (getArg args "ticker") then Except.error "Ticker symbol is required"
    else Except.ok ("profiles/" ++ jsToString (getArg args "ticker") ++ "/statistics")
  else if name == "profiles_income" then
    if jsFalsy (getArg args "ticker") then Except.error "Ticker symbol is required"
    else Except.ok ("profiles/" ++ jsToString (getArg args "ticker") ++ "/income")
  else if name == "profiles_fund" then
    if jsFalsy (getArg args "ticker") then Except.error "Ticker symbol is required"
    else Except.ok ("profiles/" ++ jsToString (getArg args "ticker") ++ "/fund")
  else if name == "profiles_summary" then
    if jsFalsy (getArg args "ticker") then Except.error "Ticker symbol is required"
    else Except.ok ("profiles/" ++ jsToString (getArg args "ticker") ++ "/summary")
  else if name == "profiles_insiders" then
    if jsFalsy (getArg args "ticker") then Except.error "Ticker symbol is required"
    else Except.ok ("profiles/" ++ jsToString (getArg args "ticker") ++ "/insiders")
  else if name == "profiles_calendar" then
    if jsFalsy (getArg args "ticker") then Except.error "Ticker symbol is required"
    else Except.ok ("profiles/" ++ jsToString (getArg args "ticker") ++ "/calendar")
  else if name == "profiles_balancesheet" then
    if jsFalsy (getArg args "ticker") then Except.error "Ticker symbol is required"
    else Except.ok ("profiles/" ++ jsToString (getArg args "ticker") ++ "/balancesheet")
  else if name == "profiles_trend_earnings" then
    if jsFalsy (getArg args "ticker") then Except.error "Ticker symbol is required"
    else Except.ok ("profiles/" ++ jsToString (getArg args "ticker") ++ "/trend/earnings")
  else if name == "profiles_institution" then
    if jsFalsy (getArg args "ticker") then Except.error "Ticker symbol is required"
    else Except.ok ("profiles/" ++ jsToString (getArg args "ticker") ++ "/institution")
  else if name == "profiles_ownership" then
    if jsFalsy (getArg args "ticker") then Except.error "Ticker symbol is required"
    else Except.ok ("profiles/" ++ jsToString (getArg args "ticker") ++ "/ownership")
  else if name == "profiles_earnings" then
    if jsFalsy (getArg args "ticker") then Except.error "Ticker symbol is required"
    else Except.ok ("profiles/" ++ jsToString (getArg args "ticker") ++ "/earnings")
  else if name == "profiles_info" then
    if jsFalsy (getArg args "ticker") then Except.error "Ticker symbol is required"
    else Except.ok ("profiles/" ++ jsToString (getArg args "ticker") ++ "/info")
  else if name == "profiles_activity" then
    if jsFalsy (getArg args "ticker") then Except.error "Ticker symbol is required"
    else Except.ok ("profiles/" ++ jsToString (getArg args "ticker") ++ "/activity")
  else if name == "profiles_transactions" then
    if jsFalsy (getArg args "ticker") then Except.error "Ticker symbol is required"
    else Except.ok ("profiles/" ++ jsToString (getArg args "ticker") ++ "/transactions")
  else if name == "profiles_financials" then
    if jsFalsy (getArg args "ticker") then Except.error "Ticker symbol is required"
    else Except.ok ("profiles/" ++ jsToString (getArg args "ticker") ++ "/financials")
  else if name == "profiles_traffic" then
    if jsFalsy (getArg args "ticker") then Except.error "Ticker symbol is required"
    else Except.ok ("profiles/" ++ jsToString (getArg args "ticker") ++ "/traffic")
  else if name == "crypto_tickers" then
    Except.ok ("crypto/tickers" ++ buildQueryString [("type", getArg args "type")])
  else if name == "crypto_ticker" then
    if jsFalsy (getArg args "ticker") then Except.error "Cryptocurrency ticker symbol is required"
    else Except.ok ("crypto/" ++ jsToString (getArg args "ticker"))
  else if name == "crypto_prices" then
    if jsFalsy (getArg args "ticker") then Except.error "Cryptocurrency ticker symbol is required"
    else Except.ok ("crypto/" ++ jsToString (getArg args "ticker") ++ "/prices")
  else if name == "forex_tickers" then
    Except.ok ("forex/tickers" ++ buildQueryString
      [("country", getArg args "country"), ("exchange", getArg args "exchange")])
  else if name == "forex_ticker" then
    if jsFalsy (getArg args "ticker") then Except.error "Forex ticker symbol is required"
    else Except.ok ("forex/" ++ jsToString (getArg args "ticker"))
  else if name == "forex_prices" then
    if jsFalsy (getArg args "ticker") then Except.error "Forex ticker symbol is required"
    else Except.ok ("forex/" ++ jsToString (getArg args "ticker") ++ "/prices")
  else if name == "future_tickers" then
    Except.ok ("future/tickers" ++ buildQueryString [("exchange", getArg args "exchange")])
  else if name == "future_ticker" then
    if jsFalsy (getArg args "ticker") then Except.error "Futures ticker symbol is required"
    else Except.ok ("future/" ++ jsToString (getArg args "ticker"))
  else if name == "future_prices" then
    if jsFalsy (getArg args "ticker") then Except.error "Futures ticker symbol is required"
    else Except.ok ("future/" ++ jsToString (getArg args "ticker") ++ "/prices")
  else if name == "indices_tickers" then
    Except.ok ("indices/tickers" ++ buildQueryString [("exchange", getArg args "exchange")])
  else if name == "indices_ticker" then
    if jsFalsy (getArg args "ticker") then Except.error "Index ticker symbol is required"
    else Except.ok ("indices/" ++ jsToString (getArg args "ticker"))
  else if name == "indices_prices" then
    if jsFalsy (getArg args "ticker") then Except.error "Index ticker symbol is required"
    else Except.ok ("indices/" ++ jsToString (getArg args "ticker") ++ "/prices")
  else if name == "stocks_tickers" then
    Except.ok ("stocks/tickers" ++ buildQueryString
      [("country", getArg args "country"), ("exchange", getArg args "exchange")])
  else if name == "stocks_ticker" then
    if jsFalsy (getArg args "ticker") then Except.error "Stock ticker symbol is required"
    else Except.ok ("stocks/" ++ jsToString (getArg args "ticker"))
  else if name == "stocks_prices" then
    if jsFalsy (getArg args "ticker") then Except.error "Stock ticker symbol is required"
    else Except.ok ("stocks/" ++ jsToString (getArg args "ticker") ++ "/prices")
  else
    Except.error ("Unknown tool: " ++ name)

/-- A single block of a result envelope: `{ type: "text", text }`. -/
structure ContentBlock where
  type : String
  text : String
deriving DecidableEq

/-- The result envelope returned across the tool-calling boundary:
`{ content: [...], isError?: boolean }`.  `isError := none` models the
field being absent, as in the success return. -/
structure Envelope where
  content : List ContentBlock
  isError : Option Bool
deriving DecidableEq

/-- The success return of the CallTool handler (src/index.js lines
1374-1381): one text block, no `isError` field. -/
def successEnvelope (payloadText : String) : Envelope :=
  { content := [{ type := "text", text := payloadText }], isError := none }

/-- The catch-block return of the CallTool handler (src/index.js lines
1382-1392): one text block `"Error: " + message`, `isError: true`. -/
def errorEnvelope (msg : String) : Envelope :=
  { content := [{ type := "text", text := "Error: " ++ msg }], isError := some true }

/-- The whole `CallToolRequestSchema` handler (src/index.js lines
913-1393): run the dispatch switch; a value thrown before the network
(validation failure or unknown tool) reaches the catch block with no
request issued; otherwise `makeApiRequest` runs once and its parsed
payload is pretty-printed into the success envelope, while its thrown
error reaches the catch block.  The second component is the list of
HTTP requests issued during the call. -/
def callTool (apiKey : String) (remote : HttpRequest → FetchResult)
    (name : String) (args : Args) : Envelope × List HttpRequest :=
  match buildEndpoint name args with
  | Except.error msg => (errorEnvelope msg, [])
  | Except.ok endpoint =>
      match makeApiRequest apiKey remote endpoint with
      | (Except.ok j, trace) => (successEnvelope (stringifyIndent2 j), trace)
      | (Except.error msg, trace) => (errorEnvelope msg, trace)

/-- One row of the path-interpolation table: a tool that embeds its
required argument directly into the request path, with the text before
and after the interpolated value. -/
structure PathCase where
  tool : String
  arg : String
  pathPre : String
  pathPost : String
deriving DecidableEq

/-- Every tool whose dispatch case interpolates its required argument
verbatim (no percent-encoding) into the endpoint path, read off the
switch (src/index.js lines 920-1372).  The two remaining path-embedding
tools, `news_country` and `news_category`, percent-encode their segment
and are deliberately absent from this table. -/
def pathCases : List PathCase :=
  [ { tool := "credit_ratings", arg := "id", pathPre := "credit/ratings/", pathPost := "" }
  , { tool := "econ_dataset", arg := "id", pathPre := "econ/dataset/", pathPost := "" }
  , { tool := "esg_data", arg := "ticker", pathPre := "esg/", pathPost := "" }
  , { tool := "etf_fund", arg := "ticker", pathPre := "etf/", pathPost := "/fund" }
  , { tool := "etf_weights", arg := "ticker", pathPre := "etf/", pathPost := "/weights" }
  , { tool := "etf_holdings", arg := "ticker", pathPre := "etf/", pathPost := "/holdings" }
  , { tool := "etf_exposure", arg := "ticker", pathPre := "etf/", pathPost := "/exposure" }
  , { tool := "news_ticker", arg := "ticker", pathPre := "news/", pathPost := "" }
  , { tool := "sentiment_social", arg := "ticker", pathPre := "sentiment/", pathPost := "/social" }
  , { tool := "sentiment_news", arg := "ticker", pathPre := "sentiment/", pathPost := "/news" }
  , { tool := "sentiment_analyst", arg := "ticker", pathPre := "sentiment/", pathPost := "/analyst" }
  , { tool := "supply_chain_customers", arg := "ticker", pathPre := "supply-chain/", pathPost := "/customers" }
  , { tool := "supply_chain_peers", arg := "ticker", pathPre := "supply-chain/", pathPost := "/peers" }
  , { tool := "supply_chain_suppliers", arg := "ticker", pathPre := "supply-chain/", pathPost := "/suppliers" }
  , { tool := "profiles_asset", arg := "ticker", pathPre := "profiles/", pathPost := "/asset" }
  , { tool := "profiles_recommendation", arg := "ticker", pathPre := "profiles/", pathPost := "/recommendation" }
  , { tool := "profiles_cashflow", arg := "ticker", pathPre := "profiles/", pathPost := "/cashflow" }
  , { tool := "profiles_trend_index", arg := "ticker", pathPre := "profiles/", pathPost := "/trend/index" }
  , { tool := "profiles_statistics", arg := "ticker", pathPre := "profiles/", pathPost := "/statistics" }
  , { tool := "profiles_income", arg := "ticker", pathPre := "profiles/", pathPost := "/income" }
  , { tool := "profiles_fund", arg := "ticker", pathPre := "profiles/", pathPost := "/fund" }
  , { tool := "profiles_summary", arg := "ticker", pathPre := "profiles/", pathPost := "/summary" }
  , { tool := "profiles_insiders", arg := "ticker", pathPre := "profiles/", pathPost := "/insiders" }
  , { tool := "profiles_calendar", arg := "ticker", pathPre := "profiles/", pathPost := "/calendar" }
  , { tool := "profiles_balancesheet", arg := "ticker", pathPre := "profiles/", pathPost := "/balancesheet" }
  , { tool := "profiles_trend_earnings", arg := "ticker", pathPre := "profiles/", pathPost := "/trend/earnings" }
  , { tool := "profiles_institution", arg := "ticker", pathPre := "profiles/", pathPost := "/institution" }
  , { tool := "profiles_ownership", arg := "ticker", pathPre := "profiles/", pathPost := "/ownership" }
  , { tool := "profiles_earnings", arg := "ticker", pathPre := "profiles/", pathPost := "/earnings" }
  , { tool := "profiles_info", arg := "ticker", pathPre := "profiles/", pathPost := "/info" }
  , { tool := "profiles_activity", arg := "ticker", pathPre := "profiles/", pathPost := "/activity" }
  , { tool := "profiles_transactions", arg := "ticker", pathPre := "profiles/", pathPost := "/transactions" }
  , { tool := "profiles_financials", arg := "ticker", pathPre := "profiles/", pathPost := "/financials" }
  , { tool := "profiles_traffic", arg := "ticker", pathPre := "profiles/", pathPost := "/traffic" }
  , { tool := "crypto_ticker", arg := "ticker", pathPre := "crypto/", pathPost := "" }
  , { tool := "crypto_prices", arg := "ticker", pathPre := "crypto/", pathPost := "/prices" }
  , { tool := "forex_ticker", arg := "ticker", pathPre := "forex/", pathPost := "" }
  , { tool := "forex_prices", arg := "ticker", pathPre := "forex/", pathPost := "/prices" }
  , { tool := "future_ticker", arg := "ticker", pathPre := "future/", pathPost := "" }
  , { tool := "future_prices", arg := "ticker", pathPre := "future/", pathPost := "/prices" }
  , { tool := "indices_ticker", arg := "ticker", pathPre := "indices/", pathPost := "" }
  , { tool := "indices_prices", arg := "ticker", pathPre := "indices/", pathPost := "/prices" }
  , { tool := "stocks_ticker", arg := "ticker", pathPre := "stocks/", pathPost := "" }
  , { tool := "stocks_prices", arg := "ticker", pathPre := "stocks/", pathPost := "/prices" }
  ]

/-- Catalog tools that embed no argument in the path: their arguments,
if any, go only into the query string (or, for `news_general`, nowhere). -/
def queryOnlyTools : List String :=
  [ "credit_search", "econ_search", "econ_calendar", "news_general"
  , "crypto_tickers", "forex_tickers", "future_tickers", "indices_tickers"
  , "stocks_tickers" ]

/-- A remote oracle that always answers status 200 with the given JSON
payload; used to instantiate success-path theorems. -/
def remoteOkJson (j : Json) : HttpRequest → FetchResult :=
  fun _ => FetchResult.success { status := 200, bodyText := "", bodyJson := some j, parseErrorMsg := "" }

/-- A remote oracle that always answers the given status with the given
raw body text and no parseable JSON; used to instantiate failure-path
theorems. -/
def remoteStatus (code : Nat) (body : String) : HttpRequest → FetchResult :=
  fun _ => FetchResult.success { status := code, bodyText := body, bodyJson := none, parseErrorMsg := "Unexpected token" }

/-- A remote oracle whose fetch always rejects with the given message. -/
def remoteNetFail (msg : String) : HttpRequest → FetchResult :=
  fun _ => FetchResult.netFailure msg

/-- Every call produces either the catch-block error envelope of some
message, or the success envelope of some pretty-printed payload. -/
theorem callTool_envelope_form (apiKey : String) (remote : HttpRequest → FetchResult)
    (name : String) (args : Args) :
    (∃ m, (callTool apiKey remote name args).1 = errorEnvelope m) ∨
    (∃ j, (callTool apiKey remote name args).1 = successEnvelope (stringifyIndent2 j)) := by
  rcases hb : buildEndpoint name args with msg | e
  · exact Or.inl ⟨msg, by simp [callTool, hb]⟩
  · rcases hr : remote (mkHttpRequest apiKey e) with r | m
    · by_cases hs : statusOk r.status
      · rcases hj : r.bodyJson with _ | j
        · exact Or.inl ⟨"Failed to fetch from " ++ (API_BASE_URL ++ e) ++ ": " ++
            r.parseErrorMsg, by simp [callTool, hb, makeApiRequest, hr, hs, hj]⟩
        · exact Or.inr ⟨j, by simp [callTool, hb, makeApiRequest, hr, hs, hj]⟩
      · exact Or.inl ⟨"Failed to fetch from " ++ (API_BASE_URL ++ e) ++ ": " ++
          ("API request failed: " ++ toString r.status ++ " - " ++ r.bodyText),
          by simp [callTool, hb, makeApiRequest, hr, hs]⟩
    · exact Or.inl ⟨"Failed to fetch from " ++ (API_BASE_URL ++ e) ++ ": " ++ m,
        by simp [callTool, hb, makeApiRequest, hr]⟩

/-- C1: for every CallTool invocation, whatever the tool name, the
arguments, and the remote outcome, the handler returns a well-formed
envelope with a single text content block; `isError` is either absent
or `true` (no error kind escapes as an uncaught fault), and when
`isError` is `true` the text begins with `Error: `. -/
theorem C1_every_call_yields_wellformed_envelope (apiKey : String)
    (remote : HttpRequest → FetchResult) (name : String) (args : Args) :
    ∃ t : String,
      (callTool apiKey remote name args).1.content = [{ type := "text", text := t }] ∧
      ((callTool apiKey remote name args).1.isError = some true ∨
        (callTool apiKey remote name args).1.isError = none) ∧
      ((callTool apiKey remote name args).1.isError = some true →
        ∃ m, t = "Error: " ++ m) := by
  rcases callTool_envelope_form apiKey remote name args with ⟨m, hm⟩ | ⟨j, hj⟩
  · exact ⟨"Error: " ++ m, by rw [hm]; rfl, Or.inl (by rw [hm]; rfl),
      fun _ => ⟨m, rfl⟩⟩
  · refine ⟨stringifyIndent2 j, by rw [hj]; rfl, Or.inr (by rw [hj]; rfl), ?_⟩
    intro h
    rw [hj] at h
    simp [successEnvelope] at h

/-- Closed instance of C1 at a concrete call. -/
theorem C1_every_call_yields_wellformed_envelope_witness :
    ∃ t : String,
      (callTool "" (remoteNetFail "boom") "news_general" []).1.content =
        [{ type := "text", text := t }] ∧
      ((callTool "" (remoteNetFail "boom") "news_general" []).1.isError = some true ∨
        (callTool "" (remoteNetFail "boom") "news_general" []).1.isError = none) ∧
      ((callTool "" (remoteNetFail "boom") "news_general" []).1.isError = some true →
        ∃ m, t = "Error: " ++ m) :=
  C1_every_call_yields_wellformed_envelope "" (remoteNetFail "boom") "news_general" []

/-- C3: the catalog served by ListTools does NOT have pairwise-distinct
names — the `indices_tickers` / `indices_ticker` / `indices_prices`
trio each occurs exactly twice, so the claimed uniqueness fails on the
code (the spec itself flags this duplication as a copy-paste defect). -/
theorem C3_catalog_duplicate_names :
    ¬ (toolCatalog.map ToolDef.name).Nodup ∧
    (toolCatalog.map ToolDef.name).count "indices_tickers" = 2 ∧
    (toolCatalog.map ToolDef.name).count "indices_ticker" = 2 ∧
    (toolCatalog.map ToolDef.name).count "indices_prices" = 2 := by
  refine ⟨fun h => ?_, by decide, by decide, by decide⟩
  have h1 : (toolCatalog.map ToolDef.name).count "indices_tickers" ≤ 1 :=
    List.nodup_iff_count_le_one.mp h "indices_tickers"
  have h2 : (toolCatalog.map ToolDef.name).count "indices_tickers" = 2 := by decide
  omega

/-- C4: for every name absent from the tool catalog, CallTool returns
the `isError: true` envelope `Error: Unknown tool: <name>` carrying the
name, and issues no network request (the default switch branch throws
before any dispatch). -/
theorem C4_unknown_tool_no_dispatch (name : String)
    (h : name ∉ toolCatalog.map ToolDef.name)
    (apiKey : String) (remote : HttpRequest → FetchResult) (args : Args) :
    callTool apiKey remote name args =
      (errorEnvelope ("Unknown tool: " ++ name), []) ∧
    (errorEnvelope ("Unknown tool: " ++ name)).isError = some true ∧
    (errorEnvelope ("Unknown tool: " ++ name)).content =
      [{ type := "text", text := "Error: " ++ ("Unknown tool: " ++ name) }] := by
  simp only [toolCatalog, List.map_cons, List.map_nil, List.mem_cons,
    List.not_mem_nil, or_false, not_or] at h
  refine ⟨?_, rfl, rfl⟩
  simp [callTool, buildEndpoint, h]

/-- Closed instance of C4 at the concrete unregistered name
`nonexistent_tool`. -/
theorem C4_unknown_tool_no_dispatch_witness :
    callTool "" (remoteNetFail "boom") "nonexistent_tool" [] =
      (errorEnvelope ("Unknown tool: " ++ "nonexistent_tool"), []) ∧
    (errorEnvelope ("Unknown tool: " ++ "nonexistent_tool")).isError = some true ∧
    (errorEnvelope ("Unknown tool: " ++ "nonexistent_tool")).content =
      [{ type := "text", text := "Error: " ++ ("Unknown tool: " ++ "nonexistent_tool") }] :=
  C4_unknown_tool_no_dispatch "nonexistent_tool" (by decide) "" (remoteNetFail "boom") []

/-- C2: for every catalog tool whose schema declares required
parameters, calling it with a required parameter absent (reads as
`undefined`) or equal to the empty string yields `isError: true` and
issues no network request — validation precedes any network access.
In particular `CallTool("credit_ratings", {})` returns exactly the
envelope `{isError: true, content: [{type: "text", text: "Error:
Organization ID is required"}]}` with an empty network trace. -/
theorem C2_required_param_validated_before_network :
    (∀ td ∈ toolCatalog, ∀ p ∈ td.requiredParams, ∀ args : Args,
      (getArg args p = JsValue.undef ∨ getArg args p = JsValue.str "") →
      ∀ (apiKey : String) (remote : HttpRequest → FetchResult),
        (callTool apiKey remote td.name args).1.isError = some true ∧
        (callTool apiKey remote td.name args).2 = []) ∧
    (∀ (apiKey : String) (remote : HttpRequest → FetchResult),
      callTool apiKey remote "credit_ratings" [] =
        ({ content := [{ type := "text", text := "Error: Organization ID is required" }]
         , isError := some true }, [])) := by
  constructor
  · intro td hmem p hp args h apiKey remote
    simp only [toolCatalog] at hmem
    fin_cases hmem <;>
      simp only [List.mem_singleton, List.not_mem_nil] at hp <;>
      subst hp <;>
      rcases h with h | h <;>
        simp [callTool, buildEndpoint, h, jsFalsy, errorEnvelope]
  · intro apiKey remote
    rfl

/-- Closed instance of C2: calling `credit_ratings` with an empty
argument bag errors out with no network request. -/
theorem C2_required_param_validated_before_network_witness :
    (callTool "" (remoteNetFail "boom") "credit_ratings" []).1.isError = some true ∧
    (callTool "" (remoteNetFail "boom") "credit_ratings" []).2 = [] :=
  C2_required_param_validated_before_network.1
    { name := "credit_ratings", props := ["id"], requiredParams := ["id"] }
    (by decide) "id" (by decide) [] (Or.inl rfl) "" (remoteNetFail "boom")

/-- C5: the query-string builder drops every parameter whose value is
`undefined`, `null`, or the empty string; when the surviving values are
all kept it emits `key=encodeURIComponent(value)` pairs joined by `&`
in the given (declaration) order behind a `?`; when nothing survives
it emits the empty string (no `?`).  Concretely, `stocks_tickers` with
`{country: "america", exchange: "NASDAQ"}` builds
`stocks/tickers?country=america&exchange=NASDAQ`, `crypto_tickers`
with `{}` builds `crypto/tickers`, and `econ_calendar` keeps its
declaration order `from` before `category` (not alphabetical). -/
theorem C5_query_string_semantics :
    (∀ (pre post : List (String × JsValue)) (k : String) (v : JsValue),
      (v = JsValue.undef ∨ v = JsValue.null ∨ v = JsValue.str "") →
      buildQueryString (pre ++ (k, v) :: post) = buildQueryString (pre ++ post)) ∧
    (∀ params : List (String × JsValue), params ≠ [] →
      (∀ p ∈ params, keepParam p.2 = true) →
      buildQueryString params =
        "?" ++ String.intercalate "&"
          (params.map (fun p => p.1 ++ "=" ++ encodeURIComponent (jsToString p.2)))) ∧
    (∀ params : List (String × JsValue), (∀ p ∈ params, keepParam p.2 = false) →
      buildQueryString params = "") ∧
    buildEndpoint "stocks_tickers"
      [("country", JsValue.str "america"), ("exchange", JsValue.str "NASDAQ")] =
      Except.ok "stocks/tickers?country=america&exchange=NASDAQ" ∧
    buildEndpoint "crypto_tickers" [] = Except.ok "crypto/tickers" ∧
    buildEndpoint "econ_calendar"
      [("from", JsValue.str "2024-01-01"), ("category", JsValue.str "gov")] =
      Except.ok "econ/calendar?from=2024-01-01&category=gov" := by
  refine ⟨?_, ?_, ?_, by rfl, by rfl, by rfl⟩
  · intro pre post k v hv
    have hk : keepParam v = false := by
      rcases hv with h | h | h <;> subst h <;> rfl
    simp [buildQueryString, List.filter_append, hk]
  · intro params hne hall
    have hf : params.filter (fun p => keepParam p.2) = params :=
      List.filter_eq_self.mpr hall
    rcases params with _ | ⟨p, ps⟩
    · exact absurd rfl hne
    · simp [buildQueryString, hf]
  · intro params hall
    have hf : params.filter (fun p => keepParam p.2) = [] :=
      List.filter_eq_nil_iff.mpr (by intro a ha; simp [hall a ha])
    simp [buildQueryString, hf]

/-- Closed instance of C5: a `null`-valued parameter in the middle of
a bag is dropped from the built query string. -/
theorem C5_query_string_semantics_witness :
    buildQueryString
      [("country", JsValue.str "america"), ("type", JsValue.null),
        ("exchange", JsValue.str "NASDAQ")] =
      buildQueryString
        [("country", JsValue.str "america"), ("exchange", JsValue.str "NASDAQ")] :=
  C5_query_string_semantics.1 [("country", JsValue.str "america")]
    [("exchange", JsValue.str "NASDAQ")] "type" JsValue.null (Or.inr (Or.inl rfl))

/-- C6: whenever the dispatch builds an endpoint and the remote answers
with an ok status and a body that parses as JSON payload `j`, the call
returns the envelope whose single text block is the indented
pretty-printing of exactly `j`, with the `isError` field absent. -/
theorem C6_success_pretty_prints_payload (apiKey : String)
    (remote : HttpRequest → FetchResult) (name : String) (args : Args)
    (e : String) (r : FetchResponse) (j : Json)
    (hb : buildEndpoint name args = Except.ok e)
    (hr : remote (mkHttpRequest apiKey e) = FetchResult.success r)
    (hs : statusOk r.status = true)
    (hj : r.bodyJson = some j) :
    callTool apiKey remote name args =
      (successEnvelope (stringifyIndent2 j), [mkHttpRequest apiKey e]) ∧
    (callTool apiKey remote name args).1.isError = none ∧
    (callTool apiKey remote name args).1.content =
      [{ type := "text", text := stringifyIndent2 j }] := by
  have hmain : callTool apiKey remote name args =
      (successEnvelope (stringifyIndent2 j), [mkHttpRequest apiKey e]) := by
    simp [callTool, hb, makeApiRequest, hr, hs, hj]
  exact ⟨hmain, by rw [hmain]; rfl, by rw [hmain]; rfl⟩

/-- Closed instance of C6 with a mocked 200/JSON remote. -/
theorem C6_success_pretty_prints_payload_witness :
    callTool "" (remoteOkJson (Json.jobj [("a", Json.jnum 1)])) "news_general" [] =
      (successEnvelope (stringifyIndent2 (Json.jobj [("a", Json.jnum 1)])),
        [mkHttpRequest "" "news"]) ∧
    (callTool "" (remoteOkJson (Json.jobj [("a", Json.jnum 1)])) "news_general" []).1.isError =
      none ∧
    (callTool "" (remoteOkJson (Json.jobj [("a", Json.jnum 1)])) "news_general" []).1.content =
      [{ type := "text", text := stringifyIndent2 (Json.jobj [("a", Json.jnum 1)]) }] :=
  C6_success_pretty_prints_payload "" (remoteOkJson (Json.jobj [("a", Json.jnum 1)]))
    "news_general" []
    "news"
    { status := 200, bodyText := "", bodyJson := some (Json.jobj [("a", Json.jnum 1)])
    , parseErrorMsg := "" }
    (Json.jobj [("a", Json.jnum 1)]) rfl rfl rfl rfl

/-- C7: whenever the remote answers with a non-success status code, the
call yields `isError: true`, the message is built from the raw response
body text (never from a JSON parse of it), and both the status code
and that body text occur verbatim inside the envelope's text. -/
theorem C7_non_success_status_reported (apiKey : String)
    (remote : HttpRequest → FetchResult) (name : String) (args : Args)
    (e : String) (r : FetchResponse)
    (hb : buildEndpoint name args = Except.ok e)
    (hr : remote (mkHttpRequest apiKey e) = FetchResult.success r)
    (hs : statusOk r.status = false) :
    (callTool apiKey remote name args).1 =
      errorEnvelope ("Failed to fetch from " ++ (API_BASE_URL ++ e) ++ ": " ++
        ("API request failed: " ++ toString r.status ++ " - " ++ r.bodyText)) ∧
    (callTool apiKey remote name args).1.isError = some true ∧
    (∃ a b : String, (callTool apiKey remote name args).1.content =
      [{ type := "text", text := a ++ toString r.status ++ b }]) ∧
    (∃ c d : String, (callTool apiKey remote name args).1.content =
      [{ type := "text", text := c ++ r.bodyText ++ d }]) := by
  have hmain : (callTool apiKey remote name args).1 =
      errorEnvelope ("Failed to fetch from " ++ (API_BASE_URL ++ e) ++ ": " ++
        ("API request failed: " ++ toString r.status ++ " - " ++ r.bodyText)) := by
    simp [callTool, hb, makeApiRequest, hr, hs]
  have hfold : ∀ x : String,
      ": " ++ ("API request failed: " ++ x) = ": API request failed: " ++ x := by
    intro x
    rw [← String.append_assoc]
    rfl
  refine ⟨hmain, by rw [hmain]; rfl, ?_, ?_⟩
  · refine ⟨"Error: " ++ ("Failed to fetch from " ++ (API_BASE_URL ++ e) ++
      ": API request failed: "), " - " ++ r.bodyText, ?_⟩
    rw [hmain]
    simp [errorEnvelope, String.append_assoc, hfold]
  · refine ⟨"Error: " ++ ("Failed to fetch from " ++ (API_BASE_URL ++ e) ++
      ": API request failed: " ++ toString r.status ++ " - "), "", ?_⟩
    rw [hmain]
    simp [errorEnvelope, String.append_assoc, hfold]

/-- Closed instance of C7 with a mocked 404 / `Not Found` remote, the
spec's concrete scenario 3. -/
theorem C7_non_success_status_reported_witness :
    (callTool "" (remoteStatus 404 "Not Found")
        "stocks_ticker" [("ticker", JsValue.str "ZZZZ")]).1 =
      errorEnvelope ("Failed to fetch from " ++ (API_BASE_URL ++ "stocks/ZZZZ") ++ ": " ++
        ("API request failed: " ++ toString 404 ++ " - " ++ "Not Found")) ∧
    (callTool "" (remoteStatus 404 "Not Found")
        "stocks_ticker" [("ticker", JsValue.str "ZZZZ")]).1.isError = some true ∧
    (∃ a b : String, (callTool "" (remoteStatus 404 "Not Found")
        "stocks_ticker" [("ticker", JsValue.str "ZZZZ")]).1.content =
      [{ type := "text", text := a ++ toString 404 ++ b }]) ∧
    (∃ c d : String, (callTool "" (remoteStatus 404 "Not Found")
        "stocks_ticker" [("ticker", JsValue.str "ZZZZ")]).1.content =
      [{ type := "text", text := c ++ "Not Found" ++ d }]) :=
  C7_non_success_status_reported "" (remoteStatus 404 "Not Found")
    "stocks_ticker" [("ticker", JsValue.str "ZZZZ")] "stocks/ZZZZ"
    { status := 404, bodyText := "Not Found", bodyJson := none
    , parseErrorMsg := "Unexpected token" } rfl rfl rfl

/-- C9: each of the three failure kinds that can arise inside
`makeApiRequest` — network-level rejection, non-success status, and
JSON parse failure of an ok response — reaches the caller as the same
uniformly shaped envelope `errorEnvelope ("Failed to fetch from
<API_BASE_URL ++ endpoint>: " ++ <underlying message>)`; nothing but
that one wrapped message string distinguishes the kinds. -/
theorem C9_remote_failures_share_one_message_shape (apiKey : String)
    (remote : HttpRequest → FetchResult) (name : String) (args : Args)
    (e : String) (hb : buildEndpoint name args = Except.ok e) :
    (∀ m, remote (mkHttpRequest apiKey e) = FetchResult.netFailure m →
      (callTool apiKey remote name args).1 =
        errorEnvelope ("Failed to fetch from " ++ (API_BASE_URL ++ e) ++ ": " ++ m)) ∧
    (∀ r, remote (mkHttpRequest apiKey e) = FetchResult.success r →
      statusOk r.status = false →
      (callTool apiKey remote name args).1 =
        errorEnvelope ("Failed to fetch from " ++ (API_BASE_URL ++ e) ++ ": " ++
          ("API request failed: " ++ toString r.status ++ " - " ++ r.bodyText))) ∧
    (∀ r, remote (mkHttpRequest apiKey e) = FetchResult.success r →
      statusOk r.status = true → r.bodyJson = none →
      (callTool apiKey remote name args).1 =
        errorEnvelope ("Failed to fetch from " ++ (API_BASE_URL ++ e) ++ ": " ++
          r.parseErrorMsg)) := by
  refine ⟨?_, ?_, ?_⟩
  · intro m hr
    simp [callTool, hb, makeApiRequest, hr]
  · intro r hr hs
    simp [callTool, hb, makeApiRequest, hr, hs]
  · intro r hr hs hj
    simp [callTool, hb, makeApiRequest, hr, hs, hj]

/-- Closed instance of C9 at a mocked network failure. -/
theorem C9_remote_failures_share_one_message_shape_witness :
    (callTool "" (remoteNetFail "connect ECONNREFUSED") "news_general" []).1 =
      errorEnvelope ("Failed to fetch from " ++ (API_BASE_URL ++ "news") ++ ": " ++
        "connect ECONNREFUSED") :=
  (C9_remote_failures_share_one_message_shape "" (remoteNetFail "connect ECONNREFUSED")
    "news_general" [] "news" rfl).1 "connect ECONNREFUSED" rfl

/-- C8: every remote request any tool issues is a single GET to
`API_BASE_URL ++ endpoint` — at most one request per call, exactly one
when the dispatch builds an endpoint — carrying the header
`Content-Type: application/json`, and carrying
`Authorization: Bearer <API_KEY>` exactly when the key is non-empty. -/
theorem C8_single_get_with_headers (apiKey : String)
    (remote : HttpRequest → FetchResult) (name : String) (args : Args) :
    (callTool apiKey remote name args).2.length ≤ 1 ∧
    (∀ e, buildEndpoint name args = Except.ok e →
      (callTool apiKey remote name args).2 = [mkHttpRequest apiKey e]) ∧
    (∀ req ∈ (callTool apiKey remote name args).2,
      req.method = "GET" ∧
      (∃ e, buildEndpoint name args = Except.ok e ∧ req.url = API_BASE_URL ++ e) ∧
      ("Content-Type", "application/json") ∈ req.headers ∧
      (("Authorization", "Bearer " ++ apiKey) ∈ req.headers ↔ apiKey ≠ "")) := by
  have hauth : ∀ ep, (("Authorization", "Bearer " ++ apiKey) ∈
      (mkHttpRequest apiKey ep).headers ↔ apiKey ≠ "") := by
    intro ep
    by_cases hk : apiKey = ""
    · subst hk
      simp [mkHttpRequest]
    · simp [mkHttpRequest, hk]
  have htrace : ∀ e, buildEndpoint name args = Except.ok e →
      (callTool apiKey remote name args).2 = [mkHttpRequest apiKey e] := by
    intro e hb
    rcases hr : remote (mkHttpRequest apiKey e) with r | m
    · by_cases hs : statusOk r.status
      · rcases hj : r.bodyJson with _ | j
        · simp [callTool, hb, makeApiRequest, hr, hs, hj]
        · simp [callTool, hb, makeApiRequest, hr, hs, hj]
      · simp [callTool, hb, makeApiRequest, hr, hs]
    · simp [callTool, hb, makeApiRequest, hr]
  rcases hb : buildEndpoint name args with msg | e
  · refine ⟨by simp [callTool, hb], ?_, ?_⟩
    · intro e he
      simp at he
    · intro req hreq
      simp [callTool, hb] at hreq
  · have ht := htrace e hb
    refine ⟨by rw [ht]; simp, ?_, ?_⟩
    · intro e2 he2
      cases he2
      exact ht
    · intro req hreq
      rw [ht] at hreq
      simp at hreq
      subst hreq
      exact ⟨rfl, ⟨e, rfl, rfl⟩, by simp [mkHttpRequest], hauth e⟩

/-- Closed instance of C8 at a concrete call. -/
theorem C8_single_get_with_headers_witness :
    (callTool "secret" (remoteOkJson Json.jnull) "news_general" []).2.length ≤ 1 :=
  (C8_single_get_with_headers "secret" (remoteOkJson Json.jnull) "news_general" []).1

/-- C10: every tool that embeds its required argument in the request
path interpolates the value verbatim — no percent-encoding, so a value
containing `/` (or `?`) changes the request path — except exactly
`news_country` and `news_category`, which percent-encode their path
segment.  The two final boolean conjuncts check the table against the
catalog: every catalog tool is a verbatim path tool, one of the two
encoding tools, or a query-only tool, and every table name exists in
the catalog. -/
theorem C10_path_interpolation_verbatim_except_news :
    (∀ pc ∈ pathCases, ∀ (args : Args) (v : String),
      getArg args pc.arg = JsValue.str v → v ≠ "" →
      buildEndpoint pc.tool args = Except.ok (pc.pathPre ++ v ++ pc.pathPost)) ∧
    (∀ (args : Args) (c : String), getArg args "country" = JsValue.str c → c ≠ "" →
      buildEndpoint "news_country" args =
        Except.ok ("news/country/" ++ encodeURIComponent c)) ∧
    (∀ (args : Args) (c : String), getArg args "category" = JsValue.str c → c ≠ "" →
      buildEndpoint "news_category" args =
        Except.ok ("news/category/" ++ encodeURIComponent c)) ∧
    buildEndpoint "stocks_ticker" [("ticker", JsValue.str "A/B")] =
      Except.ok "stocks/A/B" ∧
    buildEndpoint "news_country" [("country", JsValue.str "A/B")] =
      Except.ok "news/country/A%2FB" ∧
    encodeURIComponent "A/B" = "A%2FB" ∧
    (toolCatalog.all (fun td =>
      (pathCases.map PathCase.tool).contains td.name ||
      td.name == "news_country" || td.name == "news_category" ||
      queryOnlyTools.contains td.name) = true) ∧
    ((pathCases.map PathCase.tool ++ ["news_country", "news_category"] ++
        queryOnlyTools).all
      (fun n => (toolCatalog.map ToolDef.name).contains n) = true) := by
  refine ⟨?_, ?_, ?_, by rfl, by rfl, by rfl, by decide, by decide⟩
  · intro pc hmem args v hv hne
    simp only [pathCases] at hmem
    fin_cases hmem <;>
      simp [buildEndpoint, hv, jsFalsy, jsToString, hne, String.append_empty]
  · intro args c hv hne
    simp [buildEndpoint, hv, jsFalsy, jsToString, hne]
  · intro args c hv hne
    simp [buildEndpoint, hv, jsFalsy, jsToString, hne]

/-- Closed instance of C10 at the first table row. -/
theorem C10_path_interpolation_verbatim_except_news_witness :
    buildEndpoint "credit_ratings" [("id", JsValue.str "ORG1")] =
      Except.ok ("credit/ratings/" ++ "ORG1" ++ "") :=
  C10_path_interpolation_verbatim_except_news.1
    { tool := "credit_ratings", arg := "id", pathPre := "credit/ratings/", pathPost := "" }
    (by decide) [("id", JsValue.str "ORG1")] "ORG1" rfl (by decide)
